import Mathlib

/-!
Verification development for the settings cache and startup hydration subsystem of
voxelbotutils (src/voxelbotutils/cogs/utils/custom_bot.py).  Python dicts are embedded
as insertion-ordered association lists, the two defaultdict caches as association
lists keyed by the raw id value, and the startup sequence as a function from an
abstract database (the results the six SQL statements would produce) to the final
bot state, an event trace, and an outcome.
-/

set_option maxRecDepth 4000

namespace VBU

/-- Values stored in settings mappings and configuration entries. -/
inductive Val where
  | vStr : String → Val
  | vInt : Int → Val
  | vNull : Val
deriving DecidableEq

/-- A Python dict with string keys, as an insertion-ordered association list. -/
abbrev Settings := List (String × Val)

/-- Python dict lookup: the first binding of the key, if any. -/
def dictGet : Settings → String → Option Val
  | [], _ => none
  | (k2, v) :: d, k => if k2 = k then some v else dictGet d k

/-- Python dict item assignment: replace the binding in place, else append at the end. -/
def dictSet : Settings → String → Val → Settings
  | [], k, v => [(k, v)]
  | (k2, w) :: d, k, v => if k2 = k then (k2, v) :: d else (k2, w) :: dictSet d k v

/-- Python dict.setdefault, used for its effect only (custom_bot.py lines 158-159 and
171-172): insert the key at the end when missing, never touch an existing binding. -/
def setdefault (d : Settings) (k : String) (v : Val) : Settings :=
  match dictGet d k with
  | some _ => d
  | none => d ++ [(k, v)]

/-- The setdefault loop that hydrates DEFAULT_GUILD_SETTINGS or DEFAULT_USER_SETTINGS
from the sentinel row (custom_bot.py lines 158-159 and 171-172). -/
def hydrateDefaults : Settings → Settings → Settings
  | d, [] => d
  | d, (k, v) :: row => hydrateDefaults (setdefault d k v) row

/-- The per-entity settings cache: a defaultdict keyed by the raw id value. -/
abbrev Store := List (Val × Settings)

/-- Lookup of an entity id in the cache. -/
def storeLookup : Store → Val → Option Settings
  | [], _ => none
  | (i2, s) :: st, i => if i2 = i then some s else storeLookup st i

/-- Replace the entry of an id in place, appending it when absent. -/
def storeUpdate : Store → Val → Settings → Store
  | [], i, s => [(i, s)]
  | (i2, t) :: st, i, s => if i2 = i then (i2, s) :: st else (i2, t) :: storeUpdate st i s

/-- defaultdict item access (custom_bot.py lines 127-128): a missing id is bound to a
deep copy of the current default mapping, which in this pure embedding is the default
mapping value itself; the entry and the updated cache are returned.  Total: it never
fails. -/
def cacheGet (store : Store) (dflt : Settings) (i : Val) : Settings × Store :=
  match storeLookup store i with
  | some s => (s, store)
  | none => (dflt, store ++ [(i, dflt)])

/-- The statement cache[id][key] = value from the hydration loops (custom_bot.py
lines 165 and 178): defaultdict access followed by an in-place dict assignment on
the entry it aliases. -/
def cacheSetKey (store : Store) (dflt : Settings) (i : Val) (k : String) (v : Val) : Store :=
  storeUpdate (cacheGet store dflt i).2 i (dictSet (cacheGet store dflt i).1 k v)

/-- A fold of dict assignments: the effect of hydrating one row onto one entry. -/
def applyKVs : Settings → List (String × Val) → Settings
  | d, [] => d
  | d, (k, v) :: kvs => applyKVs (dictSet d k v) kvs

/-- Inner loop of entity hydration; idOpt is the value of the row's primary-key
column, which the source looks up afresh for every column, raising KeyError on the
first iteration when the column is missing.  An empty row runs zero iterations. -/
def hydrateRowGo (dflt : Settings) (idOpt : Option Val) :
    Store → List (String × Val) → Except String Store
  | store, [] => .ok store
  | store, (k, v) :: kvs =>
    match idOpt with
    | none => .error "KeyError"
    | some i => hydrateRowGo dflt idOpt (cacheSetKey store dflt i k v) kvs

/-- One row of the entity hydration loop (custom_bot.py lines 163-165 and 176-178). -/
def hydrateRow (store : Store) (dflt : Settings) (idKey : String) (row : Settings) :
    Except String Store :=
  hydrateRowGo dflt (dictGet row idKey) store row

/-- The whole entity hydration loop over the rows of the bulk query. -/
def hydrateRows (dflt : Settings) (idKey : String) : Store → List Settings → Except String Store
  | store, [] => .ok store
  | store, row :: rows =>
    match hydrateRow store dflt idKey row with
    | .error e => .error e
    | .ok store2 => hydrateRows dflt idKey store2 rows

/-- Observable actions of the startup sequence and the config loader.  Only error
and critical log records are modelled; debug and info logging is omitted. -/
inductive Event where
  | clearCaches
  | getConnection
  | queryDefaultGuild
  | insertDefaultGuild
  | bulkSelectGuild
  | queryDefaultUser
  | insertDefaultUser
  | bulkSelectUser
  | cogCacheSetup : String → Event
  | waitUntilReady
  | disconnect
  | readConfig
  | logError : String → Event
  | logCritical : String → Event
  | exitProcess : Nat → Event
deriving DecidableEq

/-- The replies the database gives the startup sequence: whether the connection can
be acquired, and the result of each of the six SQL statements it may run. -/
structure Db where
  connectOk : Bool
  selectDefaultGuild : Except String (List Settings)
  insertDefaultGuild : Except String (List Settings)
  selectAllGuild : Except String (List Settings)
  selectDefaultUser : Except String (List Settings)
  insertDefaultUser : Except String (List Settings)
  selectAllUser : Except String (List Settings)

/-- The bot state the modelled methods touch. -/
structure Bot where
  config : Settings
  defaultGuildSettings : Settings
  defaultUserSettings : Settings
  guildSettings : Store
  userSettings : Store
deriving DecidableEq

/-- Select the sentinel row, run the insert-returning statement when the select comes
back empty, and take row zero of whichever result is in hand (custom_bot.py lines
155-158 and 168-171); an empty final result raises IndexError at the subscript. -/
def getDefaultRow (selEv insEv : Event) (sel ins : Except String (List Settings)) :
    List Event × Except String Settings :=
  match sel with
  | .error e => ([selEv], .error e)
  | .ok rows =>
    if rows.isEmpty then
      match ins with
      | .error e => ([selEv, insEv], .error e)
      | .ok rows2 =>
        match rows2.head? with
        | none => ([selEv, insEv], .error "IndexError")
        | some r => ([selEv, insEv], .ok r)
    else
      match rows.head? with
      | none => ([selEv], .error "IndexError")
      | some r => ([selEv], .ok r)

/-- How CustomBot._startup can end: run to completion, raise an exception into the
except-clause of startup, or exit the process from _run_sql_exit_on_error (whose
SystemExit is not an Exception and so is not caught by startup). -/
inductive InnerResult where
  | finished
  | raised : String → InnerResult
  | exitedInner
deriving DecidableEq

/-- CustomBot._startup (custom_bot.py lines 141-191): clear both caches, acquire a
connection, hydrate guild defaults then guild entities, hydrate user defaults then
user entities, run the cache_setup hook of every cog, wait until ready, disconnect.
Bulk selects go through _run_sql_exit_on_error (custom_bot.py lines 193-205), which
logs at critical severity and exits; every other error is raised to the caller. -/
def runInner (db : Db) (cogs : List String) (b : Bot) : Bot × List Event × InnerResult :=
  let b1 : Bot := { b with guildSettings := [], userSettings := [] }
  if db.connectOk then
    match getDefaultRow .queryDefaultGuild .insertDefaultGuild
        db.selectDefaultGuild db.insertDefaultGuild with
    | (evG, .error e) => (b1, [Event.clearCaches, Event.getConnection] ++ evG, .raised e)
    | (evG, .ok rowG) =>
      let b2 : Bot := { b1 with defaultGuildSettings := hydrateDefaults b1.defaultGuildSettings rowG }
      match db.selectAllGuild with
      | .error e =>
        (b2, [Event.clearCaches, Event.getConnection] ++ evG ++
          [Event.bulkSelectGuild, Event.logCritical ("Error selecting from table - " ++ e),
            Event.exitProcess 1], .exitedInner)
      | .ok rowsG =>
        match hydrateRows b2.defaultGuildSettings "guild_id" b2.guildSettings rowsG with
        | .error e =>
          (b2, [Event.clearCaches, Event.getConnection] ++ evG ++ [Event.bulkSelectGuild], .raised e)
        | .ok gs =>
          let b3 : Bot := { b2 with guildSettings := gs }
          match getDefaultRow .queryDefaultUser .insertDefaultUser
              db.selectDefaultUser db.insertDefaultUser with
          | (evU, .error e) =>
            (b3, [Event.clearCaches, Event.getConnection] ++ evG ++ [Event.bulkSelectGuild] ++ evU,
              .raised e)
          | (evU, .ok rowU) =>
            let b4 : Bot := { b3 with defaultUserSettings := hydrateDefaults b3.defaultUserSettings rowU }
            match db.selectAllUser with
            | .error e =>
              (b4, [Event.clearCaches, Event.getConnection] ++ evG ++ [Event.bulkSelectGuild] ++ evU ++
                [Event.bulkSelectUser, Event.logCritical ("Error selecting from table - " ++ e),
                  Event.exitProcess 1], .exitedInner)
            | .ok rowsU =>
              match hydrateRows b4.defaultUserSettings "user_id" b4.userSettings rowsU with
              | .error e =>
                (b4, [Event.clearCaches, Event.getConnection] ++ evG ++ [Event.bulkSelectGuild] ++
                  evU ++ [Event.bulkSelectUser], .raised e)
              | .ok us =>
                let b5 : Bot := { b4 with userSettings := us }
                (b5, [Event.clearCaches, Event.getConnection] ++ evG ++ [Event.bulkSelectGuild] ++
                  evU ++ [Event.bulkSelectUser] ++ cogs.map Event.cogCacheSetup ++
                  [Event.waitUntilReady, Event.disconnect], .finished)
  else
    (b1, [Event.clearCaches], .raised "could not connect to the database")

/-- How a modelled entry point ends: normally, or by terminating the process. -/
inductive Outcome where
  | success
  | exited : Nat → Outcome
deriving DecidableEq

/-- CustomBot.startup (custom_bot.py lines 130-139): run _startup and, on an
exception, log it at error severity and call exit(1). -/
def runStartup (db : Db) (cogs : List String) (b : Bot) : Bot × List Event × Outcome :=
  match runInner db cogs b with
  | (b2, tr, .finished) => (b2, tr, .success)
  | (b2, tr, .raised e) => (b2, tr ++ [Event.logError e, Event.exitProcess 1], .exited 1)
  | (b2, tr, .exitedInner) => (b2, tr, .exited 1)

/-- CustomBot.reload_config (custom_bot.py lines 494-505): from the read-and-parse
result of the config file and the previous config, the new config, the log trace,
and the outcome.  On failure the old mapping is left in place and the process exits. -/
def reloadConfig (readResult : Except String Settings) (old : Option Settings) :
    Option Settings × List Event × Outcome :=
  match readResult with
  | .ok c => (some c, [Event.readConfig], .success)
  | .error e =>
    (old, [Event.readConfig, Event.logCritical ("Could not read config file - " ++ e),
      Event.exitProcess 1], .exited 1)

/-- The owner_ids property getter (custom_bot.py lines 384-386): the owners entry of
the loaded config, raising KeyError when absent. -/
def ownerIds (b : Bot) : Except String Val :=
  match dictGet b.config "owners" with
  | some v => .ok v
  | none => .error "KeyError"

/-- The owner_ids property setter (custom_bot.py lines 388-390): its body is pass. -/
def setOwnerIds (b : Bot) (_v : Val) : Bot := b

/-- True when the sentinel select succeeded with zero rows, so the insert runs. -/
def needsInsert : Except String (List Settings) → Bool
  | .ok rows => rows.isEmpty
  | .error _ => false

/-- The event trace of a successful run of the startup sequence. -/
def expectedTrace (insG insU : Bool) (cogs : List String) : List Event :=
  [Event.clearCaches, Event.getConnection, Event.queryDefaultGuild] ++
    (if insG then [Event.insertDefaultGuild] else []) ++
    [Event.bulkSelectGuild, Event.queryDefaultUser] ++
    (if insU then [Event.insertDefaultUser] else []) ++
    [Event.bulkSelectUser] ++ cogs.map Event.cogCacheSetup ++
    [Event.waitUntilReady, Event.disconnect]

/-- Whether an event is a log record at error or critical severity. -/
def isLog : Event → Bool
  | .logError _ => true
  | .logCritical _ => true
  | _ => false

/-- Whether an event is a log record at critical severity. -/
def isCritical : Event → Bool
  | .logCritical _ => true
  | _ => false

/-- Number of error-or-critical log records in a trace. -/
def countLog (tr : List Event) : Nat := tr.countP fun e => isLog e

/-- Number of critical log records in a trace. -/
def countCritical (tr : List Event) : Nat := tr.countP fun e => isCritical e

/-- The bot as __init__ leaves it (custom_bot.py lines 95-99 and 127-128), for a
config whose default command marker is p: DEFAULT_GUILD_SETTINGS seeded from the
config, DEFAULT_USER_SETTINGS empty, both defaultdict caches empty. -/
def scenarioBot (p : Val) : Bot :=
  { config := [("default_prefix", p)]
    defaultGuildSettings := [("prefix", p)]
    defaultUserSettings := []
    guildSettings := []
    userSettings := [] }

/-- The sentinel guild row of the C6 scenario. -/
def rowSentinelGuild : Settings := [("guild_id", Val.vInt 0), ("prefix", Val.vStr "!")]

/-- The guild row for entity 42 of the C6 scenario. -/
def rowGuild42 : Settings := [("guild_id", Val.vInt 42), ("prefix", Val.vStr "?")]

/-- The sentinel user row of the C6 scenario. -/
def rowSentinelUser : Settings := [("user_id", Val.vInt 0)]

/-- A database holding exactly the two guild rows of the C6 scenario and the user
sentinel row; every query succeeds. -/
def dbScenario : Db :=
  { connectOk := true
    selectDefaultGuild := .ok [rowSentinelGuild]
    insertDefaultGuild := .ok [rowSentinelGuild]
    selectAllGuild := .ok [rowSentinelGuild, rowGuild42]
    selectDefaultUser := .ok [rowSentinelUser]
    insertDefaultUser := .ok [rowSentinelUser]
    selectAllUser := .ok [rowSentinelUser] }

/-- A database whose sentinel guild select fails after a successful connection. -/
def dbDefaultRowFails : Db :=
  { connectOk := true
    selectDefaultGuild := .error "connection reset"
    insertDefaultGuild := .ok []
    selectAllGuild := .ok []
    selectDefaultUser := .ok []
    insertDefaultUser := .ok []
    selectAllUser := .ok [] }

/-- Appending bindings on the right does not hide an existing binding. -/
theorem dictGet_append_of_some {d1 : Settings} {k : String} {v : Val}
    (h : dictGet d1 k = some v) (d2 : Settings) : dictGet (d1 ++ d2) k = some v := by
  induction d1 with
  | nil => simp [dictGet] at h
  | cons p d1 ih =>
    obtain ⟨k2, w⟩ := p
    by_cases hk : k2 = k
    · simp [dictGet, hk] at h ⊢
      exact h
    · simp [dictGet, hk] at h ⊢
      exact ih h

/-- Lookup passes over a block with no binding of the key. -/
theorem dictGet_append_of_none {d1 : Settings} {k : String}
    (h : dictGet d1 k = none) (d2 : Settings) : dictGet (d1 ++ d2) k = dictGet d2 k := by
  induction d1 with
  | nil => simp
  | cons p d1 ih =>
    obtain ⟨k2, w⟩ := p
    by_cases hk : k2 = k
    · simp [dictGet, hk] at h
    · simp [dictGet, hk] at h ⊢
      exact ih h

/-- Lookup after an in-place assignment. -/
theorem dictGet_dictSet (d : Settings) (k : String) (v : Val) (k2 : String) :
    dictGet (dictSet d k v) k2 = if k = k2 then some v else dictGet d k2 := by
  induction d with
  | nil => simp [dictGet, dictSet]
  | cons p d ih =>
    obtain ⟨k1, w⟩ := p
    by_cases h1 : k1 = k
    · subst h1
      by_cases h2 : k1 = k2 <;> simp [dictGet, dictSet, h2]
    · by_cases h2 : k1 = k2
      · subst h2
        have h3 : k ≠ k1 := fun hh => h1 hh.symm
        simp [dictGet, dictSet, h1, h3]
      · simp [dictGet, dictSet, h1, h2, ih]

/-- A key that the assignment fold never assigns keeps its old value. -/
theorem dictGet_applyKVs_of_none {k : String} :
    ∀ (kvs : List (String × Val)) (d : Settings), dictGet kvs k = none →
      dictGet (applyKVs d kvs) k = dictGet d k := by
  intro kvs
  induction kvs with
  | nil => intro d _; rfl
  | cons p kvs ih =>
    obtain ⟨k1, v1⟩ := p
    intro d h
    by_cases h1 : k1 = k
    · simp [dictGet, h1] at h
    · simp [dictGet, h1] at h
      rw [applyKVs, ih _ h, dictGet_dictSet]
      simp [h1]

/-- A key absent from the key list of a dict has no value. -/
theorem dictGet_none_of_not_mem {k : String} :
    ∀ d : Settings, k ∉ d.map Prod.fst → dictGet d k = none := by
  intro d
  induction d with
  | nil => intro _; rfl
  | cons p d ih =>
    obtain ⟨k1, v1⟩ := p
    intro h
    simp only [List.map_cons, List.mem_cons, not_or] at h
    have h1 : k1 ≠ k := fun hh => h.1 hh.symm
    rw [dictGet, if_neg h1]
    exact ih h.2

/-- When the assigned keys are distinct, the assignment fold gives every assigned key
its value from the list. -/
theorem dictGet_applyKVs_of_some {k : String} :
    ∀ (kvs : List (String × Val)) (d : Settings) (v : Val), (kvs.map Prod.fst).Nodup →
      dictGet kvs k = some v → dictGet (applyKVs d kvs) k = some v := by
  intro kvs
  induction kvs with
  | nil => intro d v _ h; simp [dictGet] at h
  | cons p kvs ih =>
    obtain ⟨k1, v1⟩ := p
    intro d v hnd h
    simp at hnd
    by_cases h1 : k1 = k
    · subst h1
      simp [dictGet] at h
      subst h
      have hrest : dictGet kvs k1 = none :=
        dictGet_none_of_not_mem kvs (by simpa using hnd.1)
      rw [applyKVs, dictGet_applyKVs_of_none kvs _ hrest, dictGet_dictSet]
      simp
    · simp [dictGet, h1] at h
      exact ih (dictSet d k1 v1) v hnd.2 h

/-- Keys already bound in the default mapping survive the setdefault fold unchanged. -/
theorem hydrateDefaults_get_of_some {k : String} {w : Val} :
    ∀ (row : Settings) (d : Settings), dictGet d k = some w →
      dictGet (hydrateDefaults d row) k = some w := by
  intro row
  induction row with
  | nil => intro d h; exact h
  | cons p row ih =>
    obtain ⟨k1, v1⟩ := p
    intro d h
    rw [hydrateDefaults]
    apply ih
    unfold setdefault
    match hd : dictGet d k1 with
    | some _ => exact h
    | none => exact dictGet_append_of_some h _

/-- Keys not bound in the default mapping are looked up in the sentinel row after the
setdefault fold. -/
theorem hydrateDefaults_get_of_none {k : String} :
    ∀ (row : Settings) (d : Settings), dictGet d k = none →
      dictGet (hydrateDefaults d row) k = dictGet row k := by
  intro row
  induction row with
  | nil => intro d h; exact h
  | cons p row ih =>
    obtain ⟨k1, v1⟩ := p
    intro d h
    rw [hydrateDefaults]
    by_cases h1 : k1 = k
    · subst h1
      have hsd : dictGet (setdefault d k1 v1) k1 = some v1 := by
        unfold setdefault
        rw [h, dictGet_append_of_none h]
        simp [dictGet]
      rw [hydrateDefaults_get_of_some row _ hsd]
      simp [dictGet]
    · have hsd : dictGet (setdefault d k1 v1) k = none := by
        unfold setdefault
        match hd : dictGet d k1 with
        | some _ => exact h
        | none =>
          rw [dictGet_append_of_none h]
          simp [dictGet, h1]
      rw [ih _ hsd]
      simp [dictGet, h1]

/-- Updating an id and looking it up gives the new entry. -/
theorem storeLookup_update_self : ∀ (st : Store) (i : Val) (s : Settings),
    storeLookup (storeUpdate st i s) i = some s := by
  intro st
  induction st with
  | nil => intro i s; simp [storeLookup, storeUpdate]
  | cons p st ih =>
    obtain ⟨i2, t⟩ := p
    intro i s
    by_cases h : i2 = i <;> simp [storeLookup, storeUpdate, h, ih]

/-- Updating one id leaves the lookup of every other id unchanged. -/
theorem storeLookup_update_ne {i j : Val} (hne : i ≠ j) :
    ∀ (st : Store) (s : Settings), storeLookup (storeUpdate st i s) j = storeLookup st j := by
  intro st
  induction st with
  | nil => intro s; simp [storeLookup, storeUpdate, hne]
  | cons p st ih =>
    obtain ⟨i2, t⟩ := p
    intro s
    by_cases h : i2 = i
    · subst h
      simp [storeLookup, storeUpdate, hne]
    · simp [storeLookup, storeUpdate, h, ih]

/-- Two successive updates of the same id collapse to the second. -/
theorem storeUpdate_storeUpdate : ∀ (st : Store) (i : Val) (s t : Settings),
    storeUpdate (storeUpdate st i s) i t = storeUpdate st i t := by
  intro st
  induction st with
  | nil => intro i s t; simp [storeUpdate]
  | cons p st ih =>
    obtain ⟨i2, u⟩ := p
    intro i s t
    by_cases h : i2 = i <;> simp [storeUpdate, h, ih]

/-- Appending a fresh id on the right and then updating it is the same as updating
the original store. -/
theorem storeUpdate_append_of_none {i : Val} :
    ∀ (st : Store) (s t : Settings), storeLookup st i = none →
      storeUpdate (st ++ [(i, s)]) i t = storeUpdate st i t := by
  intro st
  induction st with
  | nil => intro s t _; simp [storeUpdate]
  | cons p st ih =>
    obtain ⟨i2, u⟩ := p
    intro s t h
    by_cases h2 : i2 = i
    · simp [storeLookup, h2] at h
    · simp [storeLookup, h2] at h
      simp [storeUpdate, h2, ih _ _ h]

/-- Appending a fresh id on the right makes it visible to lookup. -/
theorem storeLookup_append_self {i : Val} :
    ∀ (st : Store) (s : Settings), storeLookup st i = none →
      storeLookup (st ++ [(i, s)]) i = some s := by
  intro st
  induction st with
  | nil => intro s _; simp [storeLookup]
  | cons p st ih =>
    obtain ⟨i2, u⟩ := p
    intro s h
    by_cases h2 : i2 = i
    · simp [storeLookup, h2] at h
    · simp [storeLookup, h2] at h ⊢
      exact ih _ h

/-- The defaultdict assignment is an upsert of the id with the assignment applied to
its current entry, the freshly copied default when the id is new. -/
theorem cacheSetKey_eq (st : Store) (dflt : Settings) (i : Val) (k : String) (v : Val) :
    cacheSetKey st dflt i k v =
      storeUpdate st i (dictSet ((storeLookup st i).getD dflt) k v) := by
  unfold cacheSetKey cacheGet
  match h : storeLookup st i with
  | some s => simp
  | none => simp [storeUpdate_append_of_none st _ _ h]

/-- With the primary key in hand and at least one column, the inner hydration loop
upserts the row's id with the row folded onto its current entry. -/
theorem hydrateRowGo_ne_nil {dflt : Settings} {i : Val} :
    ∀ (kvs : List (String × Val)) (store : Store), kvs ≠ [] →
      hydrateRowGo dflt (some i) store kvs =
        .ok (storeUpdate store i (applyKVs ((storeLookup store i).getD dflt) kvs)) := by
  intro kvs
  induction kvs with
  | nil => intro store h; exact absurd rfl h
  | cons p kvs ih =>
    obtain ⟨k, v⟩ := p
    intro store _
    rw [hydrateRowGo]
    match hk : kvs with
    | [] =>
      rw [hydrateRowGo, cacheSetKey_eq]
      rfl
    | q :: kvs2 =>
      rw [ih (cacheSetKey store dflt i k v) (by simp)]
      rw [cacheSetKey_eq, storeLookup_update_self, storeUpdate_storeUpdate]
      rfl

/-- A nonempty row whose primary-key column is present hydrates to an upsert of its
id with the row's columns folded onto the current entry (the default when new). -/
theorem hydrateRow_char {row : Settings} {idKey : String} {i : Val}
    (h : dictGet row idKey = some i) (store : Store) (dflt : Settings) :
    hydrateRow store dflt idKey row =
      .ok (storeUpdate store i (applyKVs ((storeLookup store i).getD dflt) row)) := by
  unfold hydrateRow
  rw [h]
  apply hydrateRowGo_ne_nil
  intro hnil
  rw [hnil] at h
  simp [dictGet] at h

/-- A row hydrated without error either had its primary-key column or was empty, in
which case it changed nothing. -/
theorem hydrateRow_ok_of_none {row : Settings} {idKey : String} {store store2 : Store}
    {dflt : Settings} (h : dictGet row idKey = none)
    (hok : hydrateRow store dflt idKey row = .ok store2) : store2 = store := by
  match hrow : row with
  | [] =>
    unfold hydrateRow hydrateRowGo at hok
    exact (Except.ok.injEq _ _).mp hok.symm
  | p :: kvs =>
    unfold hydrateRow at hok
    rw [h] at hok
    obtain ⟨k, v⟩ := p
    rw [hydrateRowGo] at hok
    simp at hok

/-- An id present in the cache survives any upsert. -/
theorem storeLookup_isSome_update {st : Store} {j : Val} (i : Val) (s : Settings)
    (h : (storeLookup st j).isSome) : (storeLookup (storeUpdate st i s) j).isSome := by
  by_cases hij : i = j
  · subst hij
    rw [storeLookup_update_self]
    rfl
  · rw [storeLookup_update_ne hij]
    exact h

/-- An id present in the cache survives the hydration of one more row. -/
theorem hydrateRow_mono {row : Settings} {idKey : String} {store store2 : Store}
    {dflt : Settings} {j : Val} (hok : hydrateRow store dflt idKey row = .ok store2)
    (h : (storeLookup store j).isSome) : (storeLookup store2 j).isSome := by
  match hid : dictGet row idKey with
  | some i =>
    rw [hydrateRow_char hid store dflt] at hok
    rw [← (Except.ok.injEq _ _).mp hok]
    exact storeLookup_isSome_update _ _ h
  | none =>
    rw [hydrateRow_ok_of_none hid hok]
    exact h

/-- Hydrating a row whose primary-key column is present puts its id in the cache. -/
theorem hydrateRow_self {row : Settings} {idKey : String} {store store2 : Store}
    {dflt : Settings} {i : Val} (hok : hydrateRow store dflt idKey row = .ok store2)
    (hid : dictGet row idKey = some i) : (storeLookup store2 i).isSome := by
  rw [hydrateRow_char hid store dflt] at hok
  rw [← (Except.ok.injEq _ _).mp hok, storeLookup_update_self]
  rfl

/-- An id present in the cache survives the whole hydration loop. -/
theorem hydrateRows_mono {dflt : Settings} {idKey : String} {j : Val} :
    ∀ (rows : List Settings) (store store2 : Store),
      hydrateRows dflt idKey store rows = .ok store2 →
      (storeLookup store j).isSome → (storeLookup store2 j).isSome := by
  intro rows
  induction rows with
  | nil =>
    intro store store2 hok h
    unfold hydrateRows at hok
    rw [← (Except.ok.injEq _ _).mp hok]
    exact h
  | cons row rows ih =>
    intro store store2 hok h
    unfold hydrateRows at hok
    match hr : hydrateRow store dflt idKey row with
    | .error e => rw [hr] at hok; simp at hok
    | .ok store1 =>
      rw [hr] at hok
      exact ih store1 store2 hok (hydrateRow_mono hr h)

/-- After an error-free hydration loop, the cache holds the id of every row that
carried its primary-key column. -/
theorem hydrateRows_inserts {dflt : Settings} {idKey : String} {r : Settings} {i : Val} :
    ∀ (rows : List Settings) (store store2 : Store),
      hydrateRows dflt idKey store rows = .ok store2 → r ∈ rows →
      dictGet r idKey = some i → (storeLookup store2 i).isSome := by
  intro rows
  induction rows with
  | nil => intro store store2 _ hmem; simp at hmem
  | cons row rows ih =>
    intro store store2 hok hmem hid
    unfold hydrateRows at hok
    match hr : hydrateRow store dflt idKey row with
    | .error e => rw [hr] at hok; simp at hok
    | .ok store1 =>
      rw [hr] at hok
      rcases List.mem_cons.mp hmem with heq | hmem2
      · subst heq
        exact hydrateRows_mono rows store1 store2 hok (hydrateRow_self hr hid)
      · exact ih store1 store2 hok hmem2 hid

/-- Characterization of the hydration loop when every row carries its primary-key
column, the ids are pairwise distinct, and none of them is in the cache yet: the loop
succeeds, each row's entry is the row folded onto the default mapping, and every
other id keeps its old entry. -/
theorem hydrateRows_char {idKey : String} :
    ∀ (rows : List Settings) (store : Store) (dflt : Settings),
      (∀ r ∈ rows, (dictGet r idKey).isSome) →
      List.Pairwise (fun r1 r2 => dictGet r1 idKey ≠ dictGet r2 idKey) rows →
      (∀ r ∈ rows, ∀ i, dictGet r idKey = some i → storeLookup store i = none) →
      ∃ store2, hydrateRows dflt idKey store rows = .ok store2 ∧
        (∀ r ∈ rows, ∀ i, dictGet r idKey = some i →
          storeLookup store2 i = some (applyKVs dflt r)) ∧
        (∀ j, (∀ r ∈ rows, dictGet r idKey ≠ some j) →
          storeLookup store2 j = storeLookup store j) := by
  intro rows
  induction rows with
  | nil =>
    intro store dflt _ _ _
    refine ⟨store, rfl, ?_, ?_⟩
    · intro r hr; simp at hr
    · intro j _; rfl
  | cons row rows ih =>
    intro store dflt hid hdist habs
    obtain ⟨i, hi⟩ := Option.isSome_iff_exists.mp (hid row (List.mem_cons_self row rows))
    have habs0 : storeLookup store i = none := habs row (List.mem_cons_self row rows) i hi
    have hchar := hydrateRow_char hi store dflt
    rw [habs0] at hchar
    have hne : ∀ r ∈ rows, ∀ j, dictGet r idKey = some j → j ≠ i := by
      intro r hr j hj hji
      subst hji
      exact (List.pairwise_cons.mp hdist).1 r hr (hi.trans hj.symm)
    have habs1 : ∀ r ∈ rows, ∀ j, dictGet r idKey = some j →
        storeLookup (storeUpdate store i (applyKVs dflt row)) j = none := by
      intro r hr j hj
      rw [storeLookup_update_ne (fun hh => hne r hr j hj hh.symm)]
      exact habs r (List.mem_cons_of_mem row hr) j hj
    obtain ⟨store2, hok2, hfound, hkeep⟩ :=
      ih (storeUpdate store i (applyKVs dflt row)) dflt
        (fun r hr => hid r (List.mem_cons_of_mem row hr))
        (List.pairwise_cons.mp hdist).2 habs1
    refine ⟨store2, ?_, ?_, ?_⟩
    · unfold hydrateRows
      rw [hchar]
      exact hok2
    · intro r hr j hj
      rcases List.mem_cons.mp hr with heq | hr2
      · subst heq
        have hj2 : j = i := by rw [hi] at hj; exact (Option.some.injEq _ _).mp hj.symm
        subst hj2
        rw [hkeep j (fun r2 hr2 hj2 => hne r2 hr2 j hj2 rfl)]
        exact storeLookup_update_self store j (applyKVs dflt r)
      · exact hfound r hr2 j hj
    · intro j hj
      have hji : i ≠ j := by
        intro hh
        subst hh
        exact hj row (List.mem_cons_self row rows) hi
      rw [hkeep j (fun r2 hr2 => hj r2 (List.mem_cons_of_mem row hr2)),
        storeLookup_update_ne hji]

/-- The events of the sentinel-row step: the select, plus the insert when needed. -/
theorem getDefaultRow_trace (a c : Event) (sel ins : Except String (List Settings)) :
    (getDefaultRow a c sel ins).1 = if needsInsert sel then [a, c] else [a] := by
  rcases sel with e | rows
  · rfl
  · by_cases h : rows.isEmpty
    · rcases ins with e2 | rows2
      · simp [getDefaultRow, needsInsert, h]
      · cases h2 : rows2.head? <;> simp [getDefaultRow, needsInsert, h, h2]
    · cases h2 : rows.head? <;> simp [getDefaultRow, needsInsert, h, h2]

/-- Log records split over concatenation. -/
theorem countLog_append (t1 t2 : List Event) :
    countLog (t1 ++ t2) = countLog t1 + countLog t2 := by
  simp [countLog, List.countP_append]

/-- The cache-setup hook events are not log records. -/
theorem countLog_map_cog (cogs : List String) :
    countLog (cogs.map Event.cogCacheSetup) = 0 := by
  induction cogs with
  | nil => rfl
  | cons s cogs ih => simp [countLog, List.countP_cons, isLog]

/-- The sentinel-row step of the guild table emits no log records. -/
theorem countLog_gdrGuild (sel ins : Except String (List Settings)) :
    countLog (getDefaultRow .queryDefaultGuild .insertDefaultGuild sel ins).1 = 0 := by
  rw [getDefaultRow_trace]
  cases needsInsert sel <;> rfl

/-- The sentinel-row step of the user table emits no log records. -/
theorem countLog_gdrUser (sel ins : Except String (List Settings)) :
    countLog (getDefaultRow .queryDefaultUser .insertDefaultUser sel ins).1 = 0 := by
  rw [getDefaultRow_trace]
  cases needsInsert sel <;> rfl

/-- The sentinel-row step of the guild table never emits the release event. -/
theorem disconnect_not_mem_gdrGuild (sel ins : Except String (List Settings)) :
    Event.disconnect ∉ (getDefaultRow .queryDefaultGuild .insertDefaultGuild sel ins).1 := by
  rw [getDefaultRow_trace]
  cases needsInsert sel <;> simp

/-- The sentinel-row step of the user table never emits the release event. -/
theorem disconnect_not_mem_gdrUser (sel ins : Except String (List Settings)) :
    Event.disconnect ∉ (getDefaultRow .queryDefaultUser .insertDefaultUser sel ins).1 := by
  rw [getDefaultRow_trace]
  cases needsInsert sel <;> simp

/-- Case analysis of _startup: it took a _run_sql_exit_on_error exit (exactly one
error-or-critical log record, no release event), or raised (no log records, no
release event), or finished, in which case the trace is the canonical ordered trace
and the final guild cache is exactly the guild bulk rows hydrated from the hydrated
guild defaults into an empty cache. -/
theorem runInner_master (db : Db) (cogs : List String) (b : Bot) (b2 : Bot) (tr : List Event)
    (res : InnerResult) (hI : runInner db cogs b = (b2, tr, res)) :
    (res = .exitedInner ∧ countLog tr = 1 ∧ Event.disconnect ∉ tr) ∨
    ((∃ e, res = .raised e) ∧ countLog tr = 0 ∧ Event.disconnect ∉ tr) ∨
    (res = .finished ∧
      tr = expectedTrace (needsInsert db.selectDefaultGuild) (needsInsert db.selectDefaultUser)
        cogs ∧
      ∃ rowsG, db.selectAllGuild = .ok rowsG ∧
        hydrateRows b2.defaultGuildSettings "guild_id" [] rowsG = .ok b2.guildSettings) := by
  unfold runInner at hI
  dsimp only at hI
  cases hc : db.connectOk
  · rw [hc] at hI
    rw [if_neg (by simp)] at hI
    simp only [Prod.mk.injEq] at hI
    obtain ⟨hb, htr, hres⟩ := hI
    subst htr
    subst hres
    right; left
    exact ⟨⟨_, rfl⟩, rfl, by simp⟩
  · rw [hc] at hI
    rw [if_pos rfl] at hI
    rcases hgd : getDefaultRow Event.queryDefaultGuild Event.insertDefaultGuild
        db.selectDefaultGuild db.insertDefaultGuild with ⟨evG, resG⟩
    have hevTr := getDefaultRow_trace Event.queryDefaultGuild Event.insertDefaultGuild
      db.selectDefaultGuild db.insertDefaultGuild
    have hevLog := countLog_gdrGuild db.selectDefaultGuild db.insertDefaultGuild
    have hevMem := disconnect_not_mem_gdrGuild db.selectDefaultGuild db.insertDefaultGuild
    rw [hgd] at hI hevTr hevLog hevMem
    dsimp only at hevTr hevLog hevMem
    rcases resG with e | rowG
    · dsimp only at hI
      simp only [Prod.mk.injEq] at hI
      obtain ⟨hb, htr, hres⟩ := hI
      subst htr
      subst hres
      right; left
      refine ⟨⟨_, rfl⟩, ?_, ?_⟩
      · rw [countLog_append, hevLog]
        rfl
      · simp [List.mem_append, hevMem]
    · dsimp only at hI
      cases hag : db.selectAllGuild with
      | error e =>
        rw [hag] at hI
        dsimp only at hI
        simp only [Prod.mk.injEq] at hI
        obtain ⟨hb, htr, hres⟩ := hI
        subst htr
        subst hres
        left
        refine ⟨rfl, ?_, ?_⟩
        · rw [countLog_append, countLog_append, hevLog]
          rfl
        · simp [List.mem_append, hevMem]
      | ok rowsG =>
        rw [hag] at hI
        dsimp only at hI
        cases hhg : hydrateRows (hydrateDefaults b.defaultGuildSettings rowG)
            "guild_id" [] rowsG with
        | error e =>
          rw [hhg] at hI
          dsimp only at hI
          simp only [Prod.mk.injEq] at hI
          obtain ⟨hb, htr, hres⟩ := hI
          subst htr
          subst hres
          right; left
          refine ⟨⟨_, rfl⟩, ?_, ?_⟩
          · rw [countLog_append, countLog_append, hevLog]
            rfl
          · simp [List.mem_append, hevMem]
        | ok gs =>
          rw [hhg] at hI
          dsimp only at hI
          rcases hgu : getDefaultRow Event.queryDefaultUser Event.insertDefaultUser
              db.selectDefaultUser db.insertDefaultUser with ⟨evU, resU⟩
          have hevTrU := getDefaultRow_trace Event.queryDefaultUser Event.insertDefaultUser
            db.selectDefaultUser db.insertDefaultUser
          have hevLogU := countLog_gdrUser db.selectDefaultUser db.insertDefaultUser
          have hevMemU := disconnect_not_mem_gdrUser db.selectDefaultUser db.insertDefaultUser
          rw [hgu] at hI hevTrU hevLogU hevMemU
          dsimp only at hevTrU hevLogU hevMemU
          rcases resU with e | rowU
          · dsimp only at hI
            simp only [Prod.mk.injEq] at hI
            obtain ⟨hb, htr, hres⟩ := hI
            subst htr
            subst hres
            right; left
            refine ⟨⟨_, rfl⟩, ?_, ?_⟩
            · rw [countLog_append, countLog_append, countLog_append, hevLog, hevLogU]
              rfl
            · simp [List.mem_append, hevMem, hevMemU]
          · dsimp only at hI
            cases hau : db.selectAllUser with
            | error e =>
              rw [hau] at hI
              dsimp only at hI
              simp only [Prod.mk.injEq] at hI
              obtain ⟨hb, htr, hres⟩ := hI
              subst htr
              subst hres
              left
              refine ⟨rfl, ?_, ?_⟩
              · rw [countLog_append, countLog_append, countLog_append, countLog_append,
                  hevLog, hevLogU]
                rfl
              · simp [List.mem_append, hevMem, hevMemU]
            | ok rowsU =>
              rw [hau] at hI
              dsimp only at hI
              cases hhu : hydrateRows (hydrateDefaults b.defaultUserSettings rowU)
                  "user_id" [] rowsU with
              | error e =>
                rw [hhu] at hI
                dsimp only at hI
                simp only [Prod.mk.injEq] at hI
                obtain ⟨hb, htr, hres⟩ := hI
                subst htr
                subst hres
                right; left
                refine ⟨⟨_, rfl⟩, ?_, ?_⟩
                · rw [countLog_append, countLog_append, countLog_append, countLog_append,
                    hevLog, hevLogU]
                  rfl
                · simp [List.mem_append, hevMem, hevMemU]
              | ok us =>
                rw [hhu] at hI
                dsimp only at hI
                simp only [Prod.mk.injEq] at hI
                obtain ⟨hb, htr, hres⟩ := hI
                subst htr
                subst hres
                right; right
                refine ⟨rfl, ?_, ⟨rowsG, rfl, ?_⟩⟩
                · rw [hevTr, hevTrU]
                  cases needsInsert db.selectDefaultGuild <;>
                    cases needsInsert db.selectDefaultUser <;>
                      simp [expectedTrace]
                · rw [← hb]
                  dsimp only
                  exact hhg

/-- C1: reading the settings cache at an id not previously present returns a mapping
equal to a deep copy of the current default mapping, inserts that mapping into the
cache, and every later access with the same id returns the very mapping stored at
the first access and leaves the cache unchanged, whatever the default mapping has
become by then; the operation is total and never fails. -/
theorem cacheGet_materializes_and_is_stable (store : Store) (dflt : Settings) (i : Val)
    (h : storeLookup store i = none) :
    (cacheGet store dflt i).1 = dflt ∧
    storeLookup (cacheGet store dflt i).2 i = some dflt ∧
    ∀ d2 : Settings,
      cacheGet (cacheGet store dflt i).2 d2 i = (dflt, (cacheGet store dflt i).2) := by
  have h1 : cacheGet store dflt i = (dflt, store ++ [(i, dflt)]) := by
    unfold cacheGet
    rw [h]
  rw [h1]
  refine ⟨rfl, storeLookup_append_self store dflt h, ?_⟩
  intro d2
  unfold cacheGet
  rw [storeLookup_append_self store dflt h]

/-- Witness for C1 at a concrete cache, default mapping and id. -/
theorem cacheGet_materializes_and_is_stable_witness :
    storeLookup ([] : Store) (Val.vInt 7) = none ∧
    ((cacheGet [] [("prefix", Val.vStr "!")] (Val.vInt 7)).1 = [("prefix", Val.vStr "!")] ∧
      storeLookup (cacheGet [] [("prefix", Val.vStr "!")] (Val.vInt 7)).2 (Val.vInt 7) =
        some [("prefix", Val.vStr "!")] ∧
      ∀ d2 : Settings,
        cacheGet (cacheGet [] [("prefix", Val.vStr "!")] (Val.vInt 7)).2 d2 (Val.vInt 7) =
          ([("prefix", Val.vStr "!")], (cacheGet [] [("prefix", Val.vStr "!")] (Val.vInt 7)).2)) :=
  ⟨rfl, cacheGet_materializes_and_is_stable [] [("prefix", Val.vStr "!")] (Val.vInt 7) rfl⟩

/-- C2: after default-row hydration, every key of the sentinel row maps to the
sentinel value, unless the default mapping already bound the key, in which case the
pre-existing in-memory value is kept unchanged. -/
theorem hydrateDefaults_merges_without_overwrite (dflt row : Settings) (k : String) (v : Val)
    (h : dictGet row k = some v) :
    dictGet (hydrateDefaults dflt row) k = some ((dictGet dflt k).getD v) := by
  match hd : dictGet dflt k with
  | some w =>
    rw [hydrateDefaults_get_of_some row dflt hd]
    rfl
  | none =>
    rw [hydrateDefaults_get_of_none row dflt hd, h]
    rfl

/-- Witness for C2: a sentinel key absent from the defaults is inserted with the
sentinel value. -/
theorem hydrateDefaults_merges_without_overwrite_witness :
    dictGet [("timeout", Val.vInt 5)] "timeout" = some (Val.vInt 5) ∧
    dictGet (hydrateDefaults [("prefix", Val.vStr "!")] [("timeout", Val.vInt 5)]) "timeout" =
      some ((dictGet [("prefix", Val.vStr "!")] "timeout").getD (Val.vInt 5)) :=
  ⟨by decide, hydrateDefaults_merges_without_overwrite [("prefix", Val.vStr "!")]
    [("timeout", Val.vInt 5)] "timeout" (Val.vInt 5) (by decide)⟩

/-- C3: hydrating the rows of a bulk query into a cleared cache succeeds, each row's
cache entry binds every column of the row to the row's value, and every key bound in
the default mapping but absent from the row keeps its default-materialized value. -/
theorem hydrateRows_sets_columns_keeps_defaults (rows : List Settings) (dflt : Settings)
    (idKey : String)
    (hid : ∀ r ∈ rows, (dictGet r idKey).isSome)
    (hnodup : ∀ r ∈ rows, (r.map Prod.fst).Nodup)
    (hdist : (rows.map fun r => dictGet r idKey).Nodup) :
    ∃ store2, hydrateRows dflt idKey [] rows = .ok store2 ∧
      ∀ r ∈ rows, ∀ i, dictGet r idKey = some i →
        ∃ entry, storeLookup store2 i = some entry ∧
          (∀ k v, dictGet r k = some v → dictGet entry k = some v) ∧
          (∀ k w, dictGet dflt k = some w → dictGet r k = none →
            dictGet entry k = some w) := by
  have hpw : List.Pairwise (fun r1 r2 => dictGet r1 idKey ≠ dictGet r2 idKey) rows :=
    List.pairwise_map.mp hdist
  obtain ⟨store2, hok, hfound, hkeep⟩ :=
    hydrateRows_char rows [] dflt hid hpw (by intro r hr i hi; rfl)
  refine ⟨store2, hok, ?_⟩
  intro r hr i hi
  refine ⟨applyKVs dflt r, hfound r hr i hi, ?_, ?_⟩
  · intro k v hkv
    exact dictGet_applyKVs_of_some r dflt v (hnodup r hr) hkv
  · intro k w hw hnone
    rw [dictGet_applyKVs_of_none r dflt hnone]
    exact hw

/-- Witness for C3 on the two-row guild table of the scenario. -/
theorem hydrateRows_sets_columns_keeps_defaults_witness :
    ((∀ r ∈ [rowSentinelGuild, rowGuild42], (dictGet r "guild_id").isSome) ∧
      (∀ r ∈ [rowSentinelGuild, rowGuild42], (r.map Prod.fst).Nodup) ∧
      ([rowSentinelGuild, rowGuild42].map fun r => dictGet r "guild_id").Nodup) ∧
    (∃ store2,
      hydrateRows [("prefix", Val.vStr "!")] "guild_id" [] [rowSentinelGuild, rowGuild42] =
        .ok store2 ∧
      ∀ r ∈ [rowSentinelGuild, rowGuild42], ∀ i, dictGet r "guild_id" = some i →
        ∃ entry, storeLookup store2 i = some entry ∧
          (∀ k v, dictGet r k = some v → dictGet entry k = some v) ∧
          (∀ k w, dictGet [("prefix", Val.vStr "!")] k = some w → dictGet r k = none →
            dictGet entry k = some w)) :=
  ⟨⟨by decide, by decide, by decide⟩,
    hydrateRows_sets_columns_keeps_defaults [rowSentinelGuild, rowGuild42]
      [("prefix", Val.vStr "!")] "guild_id" (by decide) (by decide) (by decide)⟩

/-- C4 (amended): whenever startup does not succeed, the process exits with status 1
and the run emits exactly one error-or-critical log record before terminating; the
record is critical only on the bulk-select path, while connection and sentinel-row
errors are reported at error severity by startup's except-clause. -/
theorem startup_error_exits_with_one_log (db : Db) (cogs : List String) (b : Bot)
    (h : (runStartup db cogs b).2.2 ≠ Outcome.success) :
    (runStartup db cogs b).2.2 = Outcome.exited 1 ∧
    countLog (runStartup db cogs b).2.1 = 1 := by
  rcases hI : runInner db cogs b with ⟨b2, tr, res⟩
  have hm := runInner_master db cogs b b2 tr res hI
  cases res with
  | finished => exact absurd (by unfold runStartup; rw [hI]) h
  | raised e =>
    have hcl : countLog tr = 0 := by
      rcases hm with ⟨hres, -, -⟩ | ⟨-, hcl, -⟩ | ⟨hres, -, -⟩
      · exact absurd hres (by simp)
      · exact hcl
      · exact absurd hres (by simp)
    unfold runStartup
    rw [hI]
    dsimp only
    refine ⟨rfl, ?_⟩
    rw [countLog_append, hcl]
    rfl
  | exitedInner =>
    have hcl : countLog tr = 1 := by
      rcases hm with ⟨-, hcl, -⟩ | ⟨⟨e, hres⟩, -, -⟩ | ⟨hres, -, -⟩
      · exact hcl
      · exact absurd hres (by simp)
      · exact absurd hres (by simp)
    unfold runStartup
    rw [hI]
    exact ⟨rfl, hcl⟩

/-- C4 counterexample: a database error in the guild sentinel select makes startup
exit with status 1 while emitting zero critical log records, so the single log
record of that run is not at critical severity. -/
theorem startup_default_row_error_logs_no_critical :
    (runStartup dbDefaultRowFails [] (scenarioBot Val.vNull)).2.2 = Outcome.exited 1 ∧
    countCritical (runStartup dbDefaultRowFails [] (scenarioBot Val.vNull)).2.1 = 0 := by
  decide

/-- Witness for C4 on the failing sentinel select. -/
theorem startup_error_exits_with_one_log_witness :
    (runStartup dbDefaultRowFails [] (scenarioBot Val.vNull)).2.2 ≠ Outcome.success ∧
    ((runStartup dbDefaultRowFails [] (scenarioBot Val.vNull)).2.2 = Outcome.exited 1 ∧
      countLog (runStartup dbDefaultRowFails [] (scenarioBot Val.vNull)).2.1 = 1) :=
  ⟨by decide,
    startup_error_exits_with_one_log dbDefaultRowFails [] (scenarioBot Val.vNull) (by decide)⟩

/-- C5 (amended): after a successful startup the per-entity guild cache contains an
entry for the id of every row the bulk query returned that carries its guild_id
column; the bulk query does not exclude the sentinel, so entity id 0 is present
whenever the guild table holds its sentinel row. -/
theorem startup_hydrates_every_bulk_row_id (db : Db) (cogs : List String) (b : Bot)
    (rowsG : List Settings) (r : Settings) (i : Val)
    (hsucc : (runStartup db cogs b).2.2 = Outcome.success)
    (hsel : db.selectAllGuild = .ok rowsG) (hmem : r ∈ rowsG)
    (hid : dictGet r "guild_id" = some i) :
    (storeLookup (runStartup db cogs b).1.guildSettings i).isSome := by
  rcases hI : runInner db cogs b with ⟨b2, tr, res⟩
  have hm := runInner_master db cogs b b2 tr res hI
  cases res with
  | finished =>
    have hb : (runStartup db cogs b).1 = b2 := by unfold runStartup; rw [hI]
    rw [hb]
    rcases hm with ⟨hres, -, -⟩ | ⟨⟨e, hres⟩, -, -⟩ | ⟨-, -, rowsG2, hsel2, hok⟩
    · exact absurd hres (by simp)
    · exact absurd hres (by simp)
    · rw [hsel] at hsel2
      injection hsel2 with h3
      rw [← h3] at hok
      exact hydrateRows_inserts rowsG [] b2.guildSettings hok hmem hid
  | raised e =>
    have h2 : (runStartup db cogs b).2.2 = Outcome.exited 1 := by
      unfold runStartup; rw [hI]
    rw [h2] at hsucc
    exact absurd hsucc (by simp)
  | exitedInner =>
    have h2 : (runStartup db cogs b).2.2 = Outcome.exited 1 := by
      unfold runStartup; rw [hI]
    rw [h2] at hsucc
    exact absurd hsucc (by simp)

/-- C5 counterexample: after the scenario hydration, the per-entity guild cache does
contain entity id 0, since the bulk select returns the sentinel row as well. -/
theorem startup_scenario_sentinel_in_cache :
    storeLookup (runStartup dbScenario [] (scenarioBot (Val.vStr "x"))).1.guildSettings
      (Val.vInt 0) ≠ none := by
  decide

/-- Witness for C5 on the scenario database, at the sentinel row itself. -/
theorem startup_hydrates_every_bulk_row_id_witness :
    ((runStartup dbScenario [] (scenarioBot Val.vNull)).2.2 = Outcome.success ∧
      dbScenario.selectAllGuild = .ok [rowSentinelGuild, rowGuild42] ∧
      rowSentinelGuild ∈ [rowSentinelGuild, rowGuild42] ∧
      dictGet rowSentinelGuild "guild_id" = some (Val.vInt 0)) ∧
    (storeLookup (runStartup dbScenario [] (scenarioBot Val.vNull)).1.guildSettings
      (Val.vInt 0)).isSome :=
  ⟨⟨by decide, rfl, by decide, by decide⟩,
    startup_hydrates_every_bulk_row_id dbScenario [] (scenarioBot Val.vNull)
      [rowSentinelGuild, rowGuild42] rowSentinelGuild (Val.vInt 0)
      (by decide) rfl (by decide) (by decide)⟩

/-- C6 (amended): with the guild table holding the sentinel row (guild_id 0, value
bang) and the entity row (guild_id 42, value question mark), startup succeeds; the
default guild mapping keeps its config-seeded value for the pre-existing key, since
setdefault never overwrites it; the cache entry for entity 42 holds the row value;
and a first access for entity 99 materializes an entry holding the config-seeded
default, not the sentinel value. -/
theorem scenario_hydration_keeps_config_default (p : Val) :
    (runStartup dbScenario [] (scenarioBot p)).2.2 = Outcome.success ∧
    dictGet (runStartup dbScenario [] (scenarioBot p)).1.defaultGuildSettings "prefix" =
      some p ∧
    dictGet ((storeLookup (runStartup dbScenario [] (scenarioBot p)).1.guildSettings
      (Val.vInt 42)).getD []) "prefix" = some (Val.vStr "?") ∧
    dictGet (cacheGet (runStartup dbScenario [] (scenarioBot p)).1.guildSettings
      (runStartup dbScenario [] (scenarioBot p)).1.defaultGuildSettings (Val.vInt 99)).1
      "prefix" = some p :=
  ⟨rfl, rfl, rfl, rfl⟩

/-- C6 counterexample: when the config-seeded default differs from the sentinel
value, the default guild mapping does not equal the sentinel value after startup. -/
theorem scenario_default_not_sentinel_value :
    dictGet (runStartup dbScenario [] (scenarioBot (Val.vStr "x"))).1.defaultGuildSettings
      "prefix" ≠ some (Val.vStr "!") := by
  decide

/-- C7: a successful run of the startup sequence produces exactly the canonical
ordered trace: clear both caches, acquire the connection, guild sentinel select (and
insert when the select was empty), guild bulk select, user sentinel select (and
insert when needed), user bulk select, the cache-setup hooks in cog order, block on
readiness, release the connection.  Defaults are hydrated before entities for each
table. -/
theorem startup_success_trace_is_ordered (db : Db) (cogs : List String) (b : Bot)
    (h : (runStartup db cogs b).2.2 = Outcome.success) :
    (runStartup db cogs b).2.1 =
      expectedTrace (needsInsert db.selectDefaultGuild) (needsInsert db.selectDefaultUser)
        cogs := by
  rcases hI : runInner db cogs b with ⟨b2, tr, res⟩
  have hm := runInner_master db cogs b b2 tr res hI
  cases res with
  | finished =>
    unfold runStartup
    rw [hI]
    rcases hm with ⟨hres, -, -⟩ | ⟨⟨e, hres⟩, -, -⟩ | ⟨-, htr, -⟩
    · exact absurd hres (by simp)
    · exact absurd hres (by simp)
    · exact htr
  | raised e =>
    have h2 : (runStartup db cogs b).2.2 = Outcome.exited 1 := by
      unfold runStartup; rw [hI]
    rw [h2] at h
    exact absurd h (by simp)
  | exitedInner =>
    have h2 : (runStartup db cogs b).2.2 = Outcome.exited 1 := by
      unfold runStartup; rw [hI]
    rw [h2] at h
    exact absurd h (by simp)

/-- Witness for C7 on the scenario database, whose sentinel selects are nonempty. -/
theorem startup_success_trace_is_ordered_witness :
    (runStartup dbScenario [] (scenarioBot Val.vNull)).2.2 = Outcome.success ∧
    (runStartup dbScenario [] (scenarioBot Val.vNull)).2.1 =
      expectedTrace (needsInsert dbScenario.selectDefaultGuild)
        (needsInsert dbScenario.selectDefaultUser) [] :=
  ⟨by decide, startup_success_trace_is_ordered dbScenario [] (scenarioBot Val.vNull) (by decide)⟩

/-- C8 (amended): the startup sequence releases the database connection exactly when
it completes successfully; on every failing path the process exits without the
sequence releasing the connection. -/
theorem startup_releases_connection_iff_success (db : Db) (cogs : List String) (b : Bot) :
    Event.disconnect ∈ (runStartup db cogs b).2.1 ↔
      (runStartup db cogs b).2.2 = Outcome.success := by
  rcases hI : runInner db cogs b with ⟨b2, tr, res⟩
  have hm := runInner_master db cogs b b2 tr res hI
  cases res with
  | finished =>
    unfold runStartup
    rw [hI]
    dsimp only
    rcases hm with ⟨hres, -, -⟩ | ⟨⟨e, hres⟩, -, -⟩ | ⟨-, htr, -⟩
    · exact absurd hres (by simp)
    · exact absurd hres (by simp)
    · constructor
      · intro _
        rfl
      · intro _
        rw [htr]
        simp [expectedTrace]
  | raised e =>
    unfold runStartup
    rw [hI]
    dsimp only
    rcases hm with ⟨hres, -, -⟩ | ⟨-, -, hmem⟩ | ⟨hres, -, -⟩
    · exact absurd hres (by simp)
    · constructor
      · intro hmem2
        exfalso
        rcases List.mem_append.mp hmem2 with h1 | h2
        · exact hmem h1
        · simp at h2
      · intro hcon
        exact absurd hcon (by simp)
    · exact absurd hres (by simp)
  | exitedInner =>
    unfold runStartup
    rw [hI]
    dsimp only
    rcases hm with ⟨-, -, hmem⟩ | ⟨⟨e, hres⟩, -, -⟩ | ⟨hres, -, -⟩
    · constructor
      · intro hmem2
        exact absurd hmem2 hmem
      · intro hcon
        exact absurd hcon (by simp)
    · exact absurd hres (by simp)
    · exact absurd hres (by simp)

/-- C8 counterexample: with a failing guild sentinel select, the connection is
acquired but the run's trace contains no release event. -/
theorem startup_error_leaks_connection :
    Event.getConnection ∈ (runStartup dbDefaultRowFails [] (scenarioBot Val.vNull)).2.1 ∧
    Event.disconnect ∉ (runStartup dbDefaultRowFails [] (scenarioBot Val.vNull)).2.1 := by
  decide

/-- C9: reload reads and parses the configuration file once; on success the parsed
mapping replaces the previous configuration and nothing is logged; on any failure
one critical log record is emitted and the process exits with status 1 at once,
with no retry and no continued execution on the stale configuration. -/
theorem reloadConfig_replaces_or_exits :
    (∀ (c : Settings) (old : Option Settings),
      reloadConfig (.ok c) old = (some c, [Event.readConfig], Outcome.success)) ∧
    (∀ (e : String) (old : Option Settings),
      reloadConfig (.error e) old =
        (old, [Event.readConfig, Event.logCritical ("Could not read config file - " ++ e),
          Event.exitProcess 1], Outcome.exited 1)) :=
  ⟨fun _ _ => rfl, fun _ _ => rfl⟩

/-- C10: assigning any value to the owner_ids attribute has no effect: the setter
returns the bot state unchanged in every field, and reading owner_ids afterwards
still gives the owners entry of the loaded configuration. -/
theorem setOwnerIds_is_noop (b : Bot) (v : Val) :
    setOwnerIds b v = b ∧ ownerIds (setOwnerIds b v) = ownerIds b :=
  ⟨rfl, rfl⟩

end VBU
